import Mathlib

/-!
# Shallow embedding of the live-reloading engine

This file embeds the reload engine of the repository in Lean:

* `src/src/lib.rs` — the host-parameterized variant (`Reloadable<Host>` with
  its `internals::ReloadApi<Host>` table);
* `src/reload-api/src/lib.rs` — the non-parameterized variant (`App` with its
  `_ReloadApi` table, whose post-load entry is named `load`).

Modelling choices, all forced by the source:

* The orchestrator's state buffer is a `Vec<u64>`; we model its byte view as a
  `List Nat` in which 8 consecutive entries form one u64 word.  Every resize
  the orchestrator performs goes through `realloc_buffer`, which resizes the
  vector to `(size + 7) / 8` words, i.e. to `8 * ((size + 7) / 8)` bytes; the
  buffer's byte length is therefore always a multiple of 8, and on that
  invariant the byte-level `listResize` below coincides with the word-level
  `Vec::resize(alloc_size_u64s, 0)` of the source.
* An ABI table (`RELOAD_API`) is a record of pure functions: the real entries
  receive `&mut Host` and a raw pointer into the buffer and may rewrite both
  in place, which a pure function from (host, buffer) to (host, buffer)
  captures; writes through a raw pointer cannot change the vector's length,
  which is the `preservesLen` well-formedness predicate.  The `id` field tags
  the table so that traces can say which library an entry call went to, and
  `size` is the value the table's `size()` entry returns.
* The outcome of `AppSym::new` (dlopen + symbol lookup on the artifact file)
  is an input of each operation that loads: `none` means the open or the
  lookup failed, `some api` means it produced the table `api`.
* The watcher's channel is the `rx` list of pending `DebouncedEvent`s; the
  background watcher enqueueing an event is the `Op.feed` step.  Only the
  `NoticeWrite`/`Write`/`Create` variants are inspected by `reload`, so every
  other `notify::DebouncedEvent` variant is collapsed into `other`.
* Each operation returns, besides its result, the trace of lifecycle entries
  it invoked (a `List Call`).  The pure `size()` query is not a lifecycle
  entry and is not traced.
-/

namespace LiveReload

/-- Verdict returned by the `update` entry (`ShouldQuit` in both variants). -/
inductive ShouldQuit where
  | No
  | Yes
deriving DecidableEq, Repr

/-- The error type of `src/src/lib.rs` (`Error`): an I/O or symbol-lookup
failure, a watcher-setup failure, or the declared-but-never-raised host
mismatch. -/
inductive Error where
  | ioErr
  | watch
  | mismatchedHost
deriving DecidableEq, Repr

/-- Byte view of the orchestrator's `Vec<u64>` state buffer. -/
abbrev Buffer := List Nat

/-- `Vec::resize(n, v)` on the byte view: truncate to `n` entries or pad with
`v` up to `n` entries. -/
def listResize (l : List Nat) (n : Nat) (v : Nat) : List Nat :=
  l.take n ++ List.replicate (n - l.length) v

/-- `Reloadable::realloc_buffer` / `App::realloc_buffer` (identical in the two
variants): resize the buffer to `(size + 7) / 8` zero-initialized u64 words,
i.e. `8 * ((size + 7) / 8)` bytes of the byte view. -/
def reallocBuffer (state : Buffer) (size : Nat) : Buffer :=
  let allocSizeU64s := (size + 7) / 8
  listResize state (8 * allocSizeU64s) 0

/-- Watch events delivered on the channel (`notify::DebouncedEvent`).  The
drain loop looks only at `NoticeWrite`, `Write` and `Create`; the remaining
variants of the real enum are collapsed into `other`. -/
inductive DebouncedEvent where
  | noticeWrite (path : String)
  | write (path : String)
  | create (path : String)
  | other
deriving DecidableEq, Repr

/-- One invocation of an ABI lifecycle entry, tagged with the `id` of the
table invoked.  `Call.reload` stands for the post-load entry: the `reload`
entry of `ReloadApi<Host>`, and the `load` entry of the non-host `_ReloadApi`. -/
inductive Call where
  | init (lib : Nat)
  | reload (lib : Nat)
  | update (lib : Nat)
  | unload (lib : Nat)
  | deinit (lib : Nat)
deriving DecidableEq, Repr

/-- Is this call an `init` invocation? -/
def Call.isInit : Call → Bool
  | .init _ => true
  | _ => false

/-- The ABI table of the host-parameterized variant
(`internals::ReloadApi<Host>` in `src/src/lib.rs`). -/
structure ReloadApi (Host : Type) where
  id : Nat
  size : Nat
  init : Host → Buffer → Host × Buffer
  reload : Host → Buffer → Host × Buffer
  update : Host → Buffer → Host × Buffer × ShouldQuit
  unload : Host → Buffer → Host × Buffer
  deinit : Host → Buffer → Host × Buffer

/-- Raw-pointer writes cannot change the length of the orchestrator's vector:
a table whose entries respect the memory model preserves the buffer length. -/
def ReloadApi.preservesLen {Host : Type} (api : ReloadApi Host) : Prop :=
  (∀ h b, ((api.init h b).2).length = b.length) ∧
  (∀ h b, ((api.reload h b).2).length = b.length) ∧
  (∀ h b, ((api.update h b).2.1).length = b.length) ∧
  (∀ h b, ((api.unload h b).2).length = b.length) ∧
  (∀ h b, ((api.deinit h b).2).length = b.length)

/-- `Reloadable<Host>` (`src/src/lib.rs`): the canonicalized artifact path,
the optionally loaded symbol/table, the state buffer, the pending watcher
events, and the owned host value. -/
structure Reloadable (Host : Type) where
  path : String
  sym : Option (ReloadApi Host)
  state : Buffer
  rx : List DebouncedEvent
  host : Host

/-- `Reloadable::new` (src/src/lib.rs:278-302).  `load` is the outcome of
`AppSym::new` on the artifact; `watchOk` and `canonOk` stand for the
fallibility of watcher setup and of `canonicalize` (the `path` argument is
taken to be the canonical form when `canonOk` holds).  On success the buffer
is sized from the table's `size()` and then the `init` entry runs, exactly as
in the source; on any failure no lifecycle entry has been invoked. -/
def Reloadable.new (Host : Type) (path : String) (host : Host)
    (load : Option (ReloadApi Host)) (watchOk canonOk : Bool) :
    Except Error (Reloadable Host) × List Call :=
  match load with
  | none => (.error .ioErr, [])
  | some api =>
    if !watchOk then (.error .watch, [])
    else if !canonOk then (.error .ioErr, [])
    else
      let hs := api.init host (reallocBuffer [] api.size)
      (.ok { path := path, sym := some api, state := hs.2, rx := [], host := hs.1 },
       [Call.init api.id])

/-- `Reloadable::reload_now` (src/src/lib.rs:343-355): call `unload` on the
current table if one is loaded, drop it (`self.sym = None`), then try to load
the artifact again; on success resize the buffer to the new `size()` and call
the new table's `reload` entry, on failure return the error with nothing
loaded. -/
def Reloadable.reloadNow {Host : Type} (r : Reloadable Host)
    (load : Option (ReloadApi Host)) :
    Reloadable Host × Except Error Unit × List Call :=
  let afterUnload : Host × Buffer × List Call :=
    match r.sym with
    | some api =>
      let ub := api.unload r.host r.state
      (ub.1, ub.2, [Call.unload api.id])
    | none => (r.host, r.state, [])
  let r1 : Reloadable Host :=
    { r with sym := none, host := afterUnload.1, state := afterUnload.2.1 }
  match load with
  | none => (r1, .error .ioErr, afterUnload.2.2)
  | some api =>
    let hs := api.reload r1.host (reallocBuffer r1.state api.size)
    ({ r1 with sym := some api, host := hs.1, state := hs.2 },
     .ok (), afterUnload.2.2 ++ [Call.reload api.id])

/-- `Reloadable::update` (src/src/lib.rs:361-367): forward to the loaded
table's `update` entry, or do nothing and answer `No` when nothing is
loaded. -/
def Reloadable.update {Host : Type} (r : Reloadable Host) :
    Reloadable Host × ShouldQuit × List Call :=
  match r.sym with
  | some api =>
    let ub := api.update r.host r.state
    ({ r with host := ub.1, state := ub.2.1 }, ub.2.2, [Call.update api.id])
  | none => (r, .No, [])

/-- The event-drain loop shared by `Reloadable::reload` and `App::reload`:
walk the pending events in order, setting the flag when a
`NoticeWrite`/`Write`/`Create` event's path equals the canonical artifact
path. -/
def drainShouldReload (path : String) (rx : List DebouncedEvent) : Bool :=
  rx.foldl
    (fun acc evt =>
      match evt with
      | .noticeWrite p | .write p | .create p => if p = path then true else acc
      | .other => acc)
    false

/-- Does one event match the canonical artifact path? -/
def eventMatches (path : String) : DebouncedEvent → Bool
  | .noticeWrite p | .write p | .create p => p = path
  | .other => false

/-- `Reloadable::reload` (src/src/lib.rs:311-332): drain all pending events,
then call `reload_now` if a matching event was seen **or nothing is currently
loaded** (`should_reload || self.sym.is_none()`). -/
def Reloadable.reload {Host : Type} (r : Reloadable Host)
    (load : Option (ReloadApi Host)) :
    Reloadable Host × Except Error Unit × List Call :=
  let shld := drainShouldReload r.path r.rx
  let r1 : Reloadable Host := { r with rx := [] }
  if shld || r1.sym.isNone then
    r1.reloadNow load
  else
    (r1, .ok (), [])

/-- `impl Drop for Reloadable` (src/src/lib.rs:387-395): call `deinit` on the
loaded table if there is one; return the final host and buffer together with
the trace. -/
def Reloadable.drop {Host : Type} (r : Reloadable Host) :
    (Host × Buffer) × List Call :=
  match r.sym with
  | some api =>
    let ub := api.deinit r.host r.state
    ((ub.1, ub.2), [Call.deinit api.id])
  | none => ((r.host, r.state), [])

/-- One step of the driving loop on a live `Reloadable`: the caller invokes
`update`, `reload` or `reload_now` (each load-performing operation carrying
the artifact outcome of that moment), or the background watcher enqueues an
event. -/
inductive Op (Host : Type) where
  | update
  | reload (load : Option (ReloadApi Host))
  | reloadNow (load : Option (ReloadApi Host))
  | feed (evt : DebouncedEvent)

/-- Execute one `Op`, returning the new orchestrator and the trace of
lifecycle entries it invoked. -/
def Reloadable.step {Host : Type} (r : Reloadable Host) :
    Op Host → Reloadable Host × List Call
  | .update => ((r.update).1, (r.update).2.2)
  | .reload load => ((r.reload load).1, (r.reload load).2.2)
  | .reloadNow load => ((r.reloadNow load).1, (r.reloadNow load).2.2)
  | .feed evt => ({ r with rx := r.rx ++ [evt] }, [])

/-- Execute a sequence of operations, concatenating the traces. -/
def Reloadable.run {Host : Type} (r : Reloadable Host) :
    List (Op Host) → Reloadable Host × List Call
  | [] => (r, [])
  | op :: ops =>
    let s := r.step op
    let t := (s.1).run ops
    (t.1, s.2 ++ t.2)

/-- The ABI table of the non-parameterized variant (`_ReloadApi` in
`src/reload-api/src/lib.rs`); its post-load entry is named `load`.  The
leading underscore of the source name is dropped. -/
structure ReloadApiNoHost where
  id : Nat
  size : Nat
  init : Buffer → Buffer
  load : Buffer → Buffer
  update : Buffer → Buffer × ShouldQuit
  unload : Buffer → Buffer
  deinit : Buffer → Buffer

/-- Length preservation for the non-host table (raw-pointer writes cannot
resize the vector). -/
def ReloadApiNoHost.preservesLen (api : ReloadApiNoHost) : Prop :=
  (∀ b, (api.init b).length = b.length) ∧
  (∀ b, (api.load b).length = b.length) ∧
  (∀ b, ((api.update b).1).length = b.length) ∧
  (∀ b, (api.unload b).length = b.length) ∧
  (∀ b, (api.deinit b).length = b.length)

/-- `App` (`src/reload-api/src/lib.rs`): like `Reloadable` but with no host
value. -/
structure App where
  path : String
  sym : Option ReloadApiNoHost
  state : Buffer
  rx : List DebouncedEvent

/-- `App::new` (src/reload-api/src/lib.rs:58-80), the exact unparameterized
counterpart of `Reloadable::new`. -/
def App.new (path : String) (load : Option ReloadApiNoHost)
    (watchOk canonOk : Bool) : Except Error App × List Call :=
  match load with
  | none => (.error .ioErr, [])
  | some api =>
    if !watchOk then (.error .watch, [])
    else if !canonOk then (.error .ioErr, [])
    else
      (.ok { path := path, sym := some api,
             state := api.init (reallocBuffer [] api.size), rx := [] },
       [Call.init api.id])

/-- `App::reload_now` (src/reload-api/src/lib.rs:82-98): `unload` the current
table if any, drop it, try to load again; on success resize and call the new
table's `load` entry (traced as `Call.reload`). -/
def App.reloadNow (a : App) (load : Option ReloadApiNoHost) :
    App × Except Error Unit × List Call :=
  let afterUnload : Buffer × List Call :=
    match a.sym with
    | some api => (api.unload a.state, [Call.unload api.id])
    | none => (a.state, [])
  let a1 : App := { a with sym := none, state := afterUnload.1 }
  match load with
  | none => (a1, .error .ioErr, afterUnload.2)
  | some api =>
    let st := api.load (reallocBuffer a1.state api.size)
    ({ a1 with sym := some api, state := st },
     .ok (), afterUnload.2 ++ [Call.reload api.id])

/-- `App::update` (src/reload-api/src/lib.rs:121-129). -/
def App.update (a : App) : App × ShouldQuit × List Call :=
  match a.sym with
  | some api =>
    let ub := api.update a.state
    ({ a with state := ub.1 }, ub.2, [Call.update api.id])
  | none => (a, .No, [])

/-- `App::reload` (src/reload-api/src/lib.rs:100-119): drain all pending
events, then call `reload_now` only if a matching event was seen (no
`sym.is_none()` disjunct in this variant). -/
def App.reload (a : App) (load : Option ReloadApiNoHost) :
    App × Except Error Unit × List Call :=
  let shld := drainShouldReload a.path a.rx
  let a1 : App := { a with rx := [] }
  if shld then
    a1.reloadNow load
  else
    (a1, .ok (), [])

/-- `impl Drop for App` (src/reload-api/src/lib.rs:141-149). -/
def App.drop (a : App) : Buffer × List Call :=
  match a.sym with
  | some api => (api.deinit a.state, [Call.deinit api.id])
  | none => (a.state, [])

/-- One step of the driving loop on a live `App`, mirroring `Op` for the
non-host variant. -/
inductive OpNH where
  | update
  | reload (load : Option ReloadApiNoHost)
  | reloadNow (load : Option ReloadApiNoHost)
  | feed (evt : DebouncedEvent)

/-- Execute one `OpNH`, returning the new `App` and the trace of lifecycle
entries it invoked. -/
def App.step (a : App) : OpNH → App × List Call
  | .update => ((a.update).1, (a.update).2.2)
  | .reload load => ((a.reload load).1, (a.reload load).2.2)
  | .reloadNow load => ((a.reloadNow load).1, (a.reloadNow load).2.2)
  | .feed evt => ({ a with rx := a.rx ++ [evt] }, [])

/-- Execute a sequence of `App` operations, concatenating the traces. -/
def App.run (a : App) : List OpNH → App × List Call
  | [] => (a, [])
  | op :: ops =>
    let s := a.step op
    let t := (s.1).run ops
    (t.1, s.2 ++ t.2)

/-! ## Helper lemmas on the buffer operations -/

theorem listResize_length (l : List Nat) (n v : Nat) :
    (listResize l n v).length = n := by
  simp [listResize]
  omega

theorem getD_take (l : List Nat) (n i : Nat) (h : i < n) :
    (l.take n).getD i 0 = l.getD i 0 := by
  induction l generalizing n i with
  | nil => simp
  | cons a t ih =>
    cases n with
    | zero => omega
    | succ m =>
      cases i with
      | zero => simp
      | succ j => simpa using ih m j (by omega)

theorem getD_replicate_zero (k j : Nat) :
    (List.replicate k (0 : Nat)).getD j 0 = 0 := by
  induction k generalizing j with
  | zero => simp
  | succ m ih =>
    cases j with
    | zero => simp [List.replicate_succ]
    | succ j' => simp [List.replicate_succ, ih j']

theorem listResize_getD_lt (l : List Nat) (n i : Nat) (h : i < n) :
    (listResize l n 0).getD i 0 = l.getD i 0 := by
  unfold listResize
  rcases Nat.lt_or_ge i (l.take n).length with hlt | hge
  · rw [List.getD_append _ _ _ _ hlt, getD_take _ _ _ h]
  · rw [List.getD_append_right _ _ _ _ hge, getD_replicate_zero]
    have hlen : (l.take n).length = min n l.length := by simp
    rw [List.getD_eq_default]
    omega

theorem listResize_getD_ge (l : List Nat) (n i : Nat) (h : l.length ≤ i) :
    (listResize l n 0).getD i 0 = 0 := by
  rcases Nat.lt_or_ge i n with hlt | hge
  · unfold listResize
    have hlen : (l.take n).length = min n l.length := by simp
    rw [List.getD_append_right _ _ _ _ (by omega), getD_replicate_zero]
  · rw [List.getD_eq_default]
    rw [listResize_length]
    omega

theorem reallocBuffer_length (b : Buffer) (s : Nat) :
    (reallocBuffer b s).length = 8 * ((s + 7) / 8) := by
  simp [reallocBuffer, listResize_length]

theorem reallocBuffer_getD_lt (b : Buffer) (s i : Nat) (h : i < 8 * ((s + 7) / 8)) :
    (reallocBuffer b s).getD i 0 = b.getD i 0 :=
  listResize_getD_lt b _ i h

theorem reallocBuffer_getD_ge (b : Buffer) (s i : Nat) (h : b.length ≤ i) :
    (reallocBuffer b s).getD i 0 = 0 :=
  listResize_getD_ge b _ i h

/-! ## Helper lemmas on traces -/

theorem reloadNow_no_init {Host : Type} (r : Reloadable Host)
    (load : Option (ReloadApi Host)) :
    ∀ c ∈ (r.reloadNow load).2.2, c.isInit = false := by
  intro c hc
  cases hsym : r.sym <;> cases load <;>
    simp [Reloadable.reloadNow, hsym] at hc <;>
    first
      | (subst hc; rfl)
      | (rcases hc with hc | hc <;> subst hc <;> rfl)

theorem update_no_init {Host : Type} (r : Reloadable Host) :
    ∀ c ∈ (r.update).2.2, c.isInit = false := by
  intro c hc
  cases hsym : r.sym <;> simp [Reloadable.update, hsym] at hc
  subst hc; rfl

theorem reload_no_init {Host : Type} (r : Reloadable Host)
    (load : Option (ReloadApi Host)) :
    ∀ c ∈ (r.reload load).2.2, c.isInit = false := by
  intro c hc
  by_cases hb : (drainShouldReload r.path r.rx || r.sym.isNone) = true
  · simp only [Reloadable.reload, hb, if_true] at hc
    exact reloadNow_no_init _ _ c hc
  · simp only [Reloadable.reload, Bool.not_eq_true] at hb
    simp [Reloadable.reload, hb] at hc

theorem step_no_init {Host : Type} (r : Reloadable Host) (op : Op Host) :
    ∀ c ∈ (r.step op).2, c.isInit = false := by
  cases op with
  | update => exact update_no_init r
  | reload load => exact reload_no_init r load
  | reloadNow load => exact reloadNow_no_init r load
  | feed evt => intro c hc; simp [Reloadable.step] at hc

theorem run_no_init {Host : Type} (r : Reloadable Host) (ops : List (Op Host)) :
    ∀ c ∈ (r.run ops).2, c.isInit = false := by
  induction ops generalizing r with
  | nil => intro c hc; simp [Reloadable.run] at hc
  | cons op ops ih =>
    intro c hc
    simp only [Reloadable.run, List.mem_append] at hc
    rcases hc with hc | hc
    · exact step_no_init r op c hc
    · exact ih _ c hc

theorem drop_no_init {Host : Type} (r : Reloadable Host) :
    ∀ c ∈ (r.drop).2, c.isInit = false := by
  intro c hc
  cases hsym : r.sym <;> simp [Reloadable.drop, hsym] at hc
  subst hc; rfl

theorem reloadNowNH_no_init (a : App) (load : Option ReloadApiNoHost) :
    ∀ c ∈ (a.reloadNow load).2.2, c.isInit = false := by
  intro c hc
  cases hsym : a.sym <;> cases load <;>
    simp [App.reloadNow, hsym] at hc <;>
    first
      | (subst hc; rfl)
      | (rcases hc with hc | hc <;> subst hc <;> rfl)

theorem updateNH_no_init (a : App) :
    ∀ c ∈ (a.update).2.2, c.isInit = false := by
  intro c hc
  cases hsym : a.sym <;> simp [App.update, hsym] at hc
  subst hc; rfl

theorem reloadNH_no_init (a : App) (load : Option ReloadApiNoHost) :
    ∀ c ∈ (a.reload load).2.2, c.isInit = false := by
  intro c hc
  by_cases hb : drainShouldReload a.path a.rx = true
  · simp only [App.reload, hb, if_true] at hc
    exact reloadNowNH_no_init _ _ c hc
  · simp only [Bool.not_eq_true] at hb
    simp [App.reload, hb] at hc

theorem stepNH_no_init (a : App) (op : OpNH) :
    ∀ c ∈ (a.step op).2, c.isInit = false := by
  cases op with
  | update => exact updateNH_no_init a
  | reload load => exact reloadNH_no_init a load
  | reloadNow load => exact reloadNowNH_no_init a load
  | feed evt => intro c hc; simp [App.step] at hc

theorem runNH_no_init (a : App) (ops : List OpNH) :
    ∀ c ∈ (a.run ops).2, c.isInit = false := by
  induction ops generalizing a with
  | nil => intro c hc; simp [App.run] at hc
  | cons op ops ih =>
    intro c hc
    simp only [App.run, List.mem_append] at hc
    rcases hc with hc | hc
    · exact stepNH_no_init a op c hc
    · exact ih _ c hc

theorem dropNH_no_init (a : App) :
    ∀ c ∈ (a.drop).2, c.isInit = false := by
  intro c hc
  cases hsym : a.sym <;> simp [App.drop, hsym] at hc
  subst hc; rfl

/-- Inversion of a successful `Reloadable::new`. -/
theorem new_ok_inv {Host : Type} {path : String} {host : Host}
    {api : ReloadApi Host} {w c : Bool} {r : Reloadable Host} {tr : List Call}
    (h : Reloadable.new Host path host (some api) w c = (.ok r, tr)) :
    tr = [Call.init api.id] ∧ r.sym = some api ∧ r.rx = [] ∧
    r.host = (api.init host (reallocBuffer [] api.size)).1 ∧
    r.state = (api.init host (reallocBuffer [] api.size)).2 := by
  cases w <;> cases c <;> simp [Reloadable.new] at h
  obtain ⟨h1, h2⟩ := h
  subst h1 h2
  simp

/-- The drain loop computes exactly "some pending event matches the canonical
path". -/
theorem drainShouldReload_eq_any (path : String) (rx : List DebouncedEvent) :
    drainShouldReload path rx = rx.any (eventMatches path) := by
  have aux : ∀ (l : List DebouncedEvent) (acc : Bool),
      l.foldl
        (fun acc evt =>
          match evt with
          | .noticeWrite p | .write p | .create p => if p = path then true else acc
          | .other => acc)
        acc = (acc || l.any (eventMatches path)) := by
    intro l
    induction l with
    | nil => intro acc; simp
    | cons e t ih =>
      intro acc
      have hstep :
          (match e with
           | .noticeWrite p | .write p | .create p => if p = path then true else acc
           | .other => acc) = (acc || eventMatches path e) := by
        cases e <;> simp [eventMatches, Bool.or_comm]
      simp only [List.foldl_cons, List.any_cons, hstep, ih, Bool.or_assoc]
  simpa [drainShouldReload] using aux rx false

/-- Inversion of a successful `App::new`. -/
theorem newNH_ok_inv {path : String} {api : ReloadApiNoHost} {w c : Bool}
    {a : App} {tr : List Call}
    (h : App.new path (some api) w c = (.ok a, tr)) :
    tr = [Call.init api.id] ∧ a.sym = some api ∧ a.rx = [] ∧
    a.state = api.init (reallocBuffer [] api.size) := by
  cases w <;> cases c <;> simp [App.new] at h
  obtain ⟨h1, h2⟩ := h
  subst h1 h2
  simp

/-! ## Concrete tables and orchestrator states used by witnesses and
counterexamples -/

/-- A table whose lifecycle entries leave host and buffer untouched. -/
def apiInert (i s : Nat) : ReloadApi Nat where
  id := i
  size := s
  init := fun h b => (h, b)
  reload := fun h b => (h, b)
  update := fun h b => (h, b, .No)
  unload := fun h b => (h, b)
  deinit := fun h b => (h, b)

theorem apiInert_preservesLen (i s : Nat) : (apiInert i s).preservesLen :=
  ⟨fun _ _ => rfl, fun _ _ => rfl, fun _ _ => rfl, fun _ _ => rfl, fun _ _ => rfl⟩

/-- A non-host table whose lifecycle entries leave the buffer untouched. -/
def apiInertNH (i s : Nat) : ReloadApiNoHost where
  id := i
  size := s
  init := id
  load := id
  update := fun b => (b, .No)
  unload := id
  deinit := id

theorem apiInertNH_preservesLen (i s : Nat) : (apiInertNH i s).preservesLen :=
  ⟨fun _ => rfl, fun _ => rfl, fun _ => rfl, fun _ => rfl, fun _ => rfl⟩

/-- A table declaring 16 bytes whose `init` writes 7 into byte 10 — a write
the library is entitled to make, byte 10 lying inside its declared 16
bytes. -/
def apiWrites16 : ReloadApi Nat where
  id := 1
  size := 16
  init := fun h b => (h, b.set 10 7)
  reload := fun h b => (h, b)
  update := fun h b => (h, b, .No)
  unload := fun h b => (h, b)
  deinit := fun h b => (h, b)

/-- An orchestrator with a library loaded (table id 5, size 8) and no pending
events. -/
def rLoaded : Reloadable Nat where
  path := "/build/libdemo.so"
  sym := some (apiInert 5 8)
  state := List.replicate 8 0
  rx := []
  host := 0

/-- An orchestrator with nothing loaded and no pending events. -/
def rUnloaded : Reloadable Nat where
  path := "/build/libdemo.so"
  sym := none
  state := List.replicate 8 0
  rx := []
  host := 0

/-- A non-host orchestrator with a library loaded and no pending events. -/
def aLoaded : App where
  path := "/build/libdemo.so"
  sym := some (apiInertNH 5 8)
  state := List.replicate 8 0
  rx := []

/-- A non-host orchestrator with nothing loaded and no pending events. -/
def aUnloaded : App where
  path := "/build/libdemo.so"
  sym := none
  state := List.replicate 8 0
  rx := []

/-- The orchestrator produced by a successful `Reloadable::new` against
`apiInert 0 8`. -/
def rFresh : Reloadable Nat :=
  match (Reloadable.new Nat "/build/libdemo.so" 0 (some (apiInert 0 8)) true true).1 with
  | .ok r => r
  | .error _ => rUnloaded

/-- The orchestrator produced by a successful `App::new` against
`apiInertNH 0 8`. -/
def aFresh : App :=
  match (App.new "/build/libdemo.so" (some (apiInertNH 0 8)) true true).1 with
  | .ok a => a
  | .error _ => aUnloaded

/-! ## The claims -/

/-- A concrete driver sequence for the host-parameterized lifetime: update,
an immediate reload to a new table, a fed event, then a change-triggered
reload attempt that fails. -/
def c1OpsHost : List (Op Nat) :=
  [Op.update, Op.reloadNow (some (apiInert 4 16)),
   Op.feed (DebouncedEvent.write "/build/libdemo.so"), Op.reload none]

/-- The same concrete driver sequence for the non-host variant. -/
def c1OpsNH : List OpNH :=
  [OpNH.update, OpNH.reloadNow (some (apiInertNH 4 16)),
   OpNH.feed (DebouncedEvent.write "/build/libdemo.so"), OpNH.reload none]

/-- C1: for every successful construction — `Reloadable::new` and `App::new`
alike — the `init` entry is invoked exactly once over the object's entire
lifetime: during construction, on the buffer just sized from the table's
`size()` (the final state is `init` applied to `reallocBuffer [] size`), and
this invocation precedes every `update`, `reload`/`load`, `unload` and
`deinit` invocation: the full lifetime trace (construction, then any sequence
of driver operations, then drop) starts with that one `init` and contains no
other, so no load performed by `reload_now` ever invokes `init` again. -/
theorem C1_init_exactly_once_and_first :
    (∀ (Host : Type) (path : String) (host : Host) (api : ReloadApi Host)
        (watchOk canonOk : Bool) (r : Reloadable Host) (tr : List Call),
      Reloadable.new Host path host (some api) watchOk canonOk = (.ok r, tr) →
      ∀ ops : List (Op Host),
        r.state = (api.init host (reallocBuffer [] api.size)).2 ∧
        ∃ rest,
          tr ++ (r.run ops).2 ++ (((r.run ops).1).drop).2
              = Call.init api.id :: rest ∧
          ∀ c ∈ rest, c.isInit = false) ∧
    (∀ (path : String) (api : ReloadApiNoHost) (watchOk canonOk : Bool)
        (a : App) (tr : List Call),
      App.new path (some api) watchOk canonOk = (.ok a, tr) →
      ∀ ops : List OpNH,
        a.state = api.init (reallocBuffer [] api.size) ∧
        ∃ rest,
          tr ++ (a.run ops).2 ++ (((a.run ops).1).drop).2
              = Call.init api.id :: rest ∧
          ∀ c ∈ rest, c.isInit = false) := by
  constructor
  · intro Host path host api watchOk canonOk r tr hnew ops
    obtain ⟨htr, _, _, _, hstate⟩ := new_ok_inv hnew
    refine ⟨hstate, (r.run ops).2 ++ (((r.run ops).1).drop).2, by simp [htr], ?_⟩
    intro c hc
    rcases List.mem_append.mp hc with hc | hc
    · exact run_no_init r ops c hc
    · exact drop_no_init _ c hc
  · intro path api watchOk canonOk a tr hnew ops
    obtain ⟨htr, _, _, hstate⟩ := newNH_ok_inv hnew
    refine ⟨hstate, (a.run ops).2 ++ (((a.run ops).1).drop).2, by simp [htr], ?_⟩
    intro c hc
    rcases List.mem_append.mp hc with hc | hc
    · exact runNH_no_init a ops c hc
    · exact dropNH_no_init _ c hc

/-- C1 witness: concrete lifetimes in both variants (construction against the
size-8 table with id 0, then `c1OpsHost` / `c1OpsNH`, then drop). -/
theorem C1_witness :
    (rFresh.state = ((apiInert 0 8).init 0 (reallocBuffer [] (apiInert 0 8).size)).2 ∧
      ∃ rest,
        [Call.init 0] ++ (rFresh.run c1OpsHost).2 ++ (((rFresh.run c1OpsHost).1).drop).2
            = Call.init 0 :: rest ∧
        ∀ c ∈ rest, c.isInit = false) ∧
    (aFresh.state = (apiInertNH 0 8).init (reallocBuffer [] (apiInertNH 0 8).size) ∧
      ∃ rest,
        [Call.init 0] ++ (aFresh.run c1OpsNH).2 ++ (((aFresh.run c1OpsNH).1).drop).2
            = Call.init 0 :: rest ∧
        ∀ c ∈ rest, c.isInit = false) :=
  ⟨C1_init_exactly_once_and_first.1 Nat "/build/libdemo.so" 0 (apiInert 0 8)
     true true rFresh [Call.init 0] rfl c1OpsHost,
   C1_init_exactly_once_and_first.2 "/build/libdemo.so" (apiInertNH 0 8)
     true true aFresh [Call.init 0] rfl c1OpsNH⟩

/-- C2: whenever `reload_now` succeeds on an orchestrator that currently has a
library loaded, its trace is exactly `unload` on the outgoing table followed
by `reload` (resp. `load`) on the incoming table — once each, in that order,
with nothing interleaved — in both variants. -/
theorem C2_unload_then_reload :
    (∀ (Host : Type) (r : Reloadable Host) (oldApi newApi : ReloadApi Host),
      r.sym = some oldApi →
        (r.reloadNow (some newApi)).2.2
            = [Call.unload oldApi.id, Call.reload newApi.id] ∧
        (r.reloadNow (some newApi)).2.1 = .ok ()) ∧
    (∀ (a : App) (oldApi newApi : ReloadApiNoHost),
      a.sym = some oldApi →
        (a.reloadNow (some newApi)).2.2
            = [Call.unload oldApi.id, Call.reload newApi.id] ∧
        (a.reloadNow (some newApi)).2.1 = .ok ()) := by
  constructor
  · intro Host r oldApi newApi h
    simp [Reloadable.reloadNow, h]
  · intro a oldApi newApi h
    simp [App.reloadNow, h]

/-- C2 witness: reloading `rLoaded` (table id 5) to a table with id 6, in both
variants. -/
theorem C2_witness :
    ((rLoaded.reloadNow (some (apiInert 6 16))).2.2
        = [Call.unload 5, Call.reload 6] ∧
      (rLoaded.reloadNow (some (apiInert 6 16))).2.1 = .ok ()) ∧
    ((aLoaded.reloadNow (some (apiInertNH 6 16))).2.2
        = [Call.unload 5, Call.reload 6] ∧
      (aLoaded.reloadNow (some (apiInertNH 6 16))).2.1 = .ok ()) :=
  ⟨C2_unload_then_reload.1 Nat rLoaded (apiInert 5 8) (apiInert 6 16) rfl,
   C2_unload_then_reload.2 aLoaded (apiInertNH 5 8) (apiInertNH 6 16) rfl⟩

/-- C3: when `reload_now` fails to open the new artifact or resolve its
symbol (`load = none`), it returns the error and leaves the orchestrator
unloaded: the old table's `unload` ran (exactly that one call is traced), the
buffer is exactly as `unload` left it (not resized, not written afterwards),
no new table is installed, a subsequent `update` returns `No` without any
effect, and no later `reload_now` ever invokes the old table's `unload`
again.  Both variants. -/
theorem C3_failed_reload_unloads :
    (∀ (Host : Type) (r : Reloadable Host) (oldApi : ReloadApi Host),
      r.sym = some oldApi →
        (r.reloadNow none).2.1 = .error Error.ioErr ∧
        (r.reloadNow none).1.sym = none ∧
        (r.reloadNow none).2.2 = [Call.unload oldApi.id] ∧
        (r.reloadNow none).1.state = (oldApi.unload r.host r.state).2 ∧
        (r.reloadNow none).1.host = (oldApi.unload r.host r.state).1 ∧
        ((r.reloadNow none).1).update
            = ((r.reloadNow none).1, ShouldQuit.No, ([] : List Call)) ∧
        ∀ load2, Call.unload oldApi.id ∉ (((r.reloadNow none).1).reloadNow load2).2.2) ∧
    (∀ (a : App) (oldApi : ReloadApiNoHost),
      a.sym = some oldApi →
        (a.reloadNow none).2.1 = .error Error.ioErr ∧
        (a.reloadNow none).1.sym = none ∧
        (a.reloadNow none).2.2 = [Call.unload oldApi.id] ∧
        (a.reloadNow none).1.state = oldApi.unload a.state ∧
        ((a.reloadNow none).1).update
            = ((a.reloadNow none).1, ShouldQuit.No, ([] : List Call)) ∧
        ∀ load2, Call.unload oldApi.id ∉ (((a.reloadNow none).1).reloadNow load2).2.2) := by
  constructor
  · intro Host r oldApi h
    refine ⟨by simp [Reloadable.reloadNow, h], by simp [Reloadable.reloadNow, h],
      by simp [Reloadable.reloadNow, h], by simp [Reloadable.reloadNow, h],
      by simp [Reloadable.reloadNow, h], by simp [Reloadable.reloadNow, Reloadable.update, h], ?_⟩
    intro load2
    cases load2 <;> simp [Reloadable.reloadNow, h]
  · intro a oldApi h
    refine ⟨by simp [App.reloadNow, h], by simp [App.reloadNow, h],
      by simp [App.reloadNow, h], by simp [App.reloadNow, h],
      by simp [App.reloadNow, App.update, h], ?_⟩
    intro load2
    cases load2 <;> simp [App.reloadNow, h]

/-- C3 witness: a failed reload of `rLoaded` / `aLoaded` (table id 5). -/
theorem C3_witness :
    ((rLoaded.reloadNow none).2.1 = .error Error.ioErr ∧
      (rLoaded.reloadNow none).1.sym = none ∧
      (rLoaded.reloadNow none).2.2 = [Call.unload 5] ∧
      (rLoaded.reloadNow none).1.state
          = ((apiInert 5 8).unload rLoaded.host rLoaded.state).2 ∧
      (rLoaded.reloadNow none).1.host
          = ((apiInert 5 8).unload rLoaded.host rLoaded.state).1 ∧
      ((rLoaded.reloadNow none).1).update
          = ((rLoaded.reloadNow none).1, ShouldQuit.No, ([] : List Call)) ∧
      ∀ load2, Call.unload 5 ∉ (((rLoaded.reloadNow none).1).reloadNow load2).2.2) ∧
    ((aLoaded.reloadNow none).2.1 = .error Error.ioErr ∧
      (aLoaded.reloadNow none).1.sym = none ∧
      (aLoaded.reloadNow none).2.2 = [Call.unload 5] ∧
      (aLoaded.reloadNow none).1.state = (apiInertNH 5 8).unload aLoaded.state ∧
      ((aLoaded.reloadNow none).1).update
          = ((aLoaded.reloadNow none).1, ShouldQuit.No, ([] : List Call)) ∧
      ∀ load2, Call.unload 5 ∉ (((aLoaded.reloadNow none).1).reloadNow load2).2.2) :=
  ⟨C3_failed_reload_unloads.1 Nat rLoaded (apiInert 5 8) rfl,
   C3_failed_reload_unloads.2 aLoaded (apiInertNH 5 8) rfl⟩

/-- C4 counterexample: the claim says `reload` "returns success without doing
anything" when no drained create/write event matches the canonical path, but
`Reloadable::reload` also fires when nothing is loaded (`should_reload ||
self.sym.is_none()`): on `rUnloaded` — no pending events at all, so nothing
matches — `reload` nevertheless invokes `reload_now`, which loads and runs
the new table's `reload` entry. -/
theorem C4_counterexample :
    drainShouldReload rUnloaded.path rUnloaded.rx = false ∧
    rUnloaded.sym = none ∧
    (rUnloaded.reload (some (apiInert 4 8))).2.2 = [Call.reload 4] ∧
    ((rUnloaded.reload (some (apiInert 4 8))).1.sym.map ReloadApi.id) = some 4 :=
  ⟨rfl, rfl, rfl, rfl⟩

/-- C4 amended: `reload` drains all pending watch events (the returned
orchestrator's queue is empty) and performs at most one `reload_now` per
call.  `App::reload` invokes `reload_now` exactly when at least one drained
`NoticeWrite`/`Write`/`Create` event's path equals the canonical artifact
path (the drain flag equals `rx.any (eventMatches path)`), and otherwise
returns success without doing anything.  `Reloadable::reload` behaves the
same **when a library is currently loaded**; when nothing is loaded it
invokes `reload_now` unconditionally. -/
theorem C4_amended_reload_on_match :
    (∀ (path : String) (rx : List DebouncedEvent),
      drainShouldReload path rx = rx.any (eventMatches path)) ∧
    (∀ (Host : Type) (r : Reloadable Host) (api : ReloadApi Host)
        (load : Option (ReloadApi Host)), r.sym = some api →
      (drainShouldReload r.path r.rx = true →
        r.reload load = ({ r with rx := [] } : Reloadable Host).reloadNow load) ∧
      (drainShouldReload r.path r.rx = false →
        r.reload load = ({ r with rx := [] }, .ok (), ([] : List Call)))) ∧
    (∀ (Host : Type) (r : Reloadable Host) (load : Option (ReloadApi Host)),
      r.sym = none →
      r.reload load = ({ r with rx := [] } : Reloadable Host).reloadNow load) ∧
    (∀ (a : App) (load : Option ReloadApiNoHost),
      (drainShouldReload a.path a.rx = true →
        a.reload load = ({ a with rx := [] } : App).reloadNow load) ∧
      (drainShouldReload a.path a.rx = false →
        a.reload load = ({ a with rx := [] }, .ok (), ([] : List Call)))) := by
  refine ⟨drainShouldReload_eq_any, ?_, ?_, ?_⟩
  · intro Host r api load hsym
    constructor <;> intro hd <;> simp [Reloadable.reload, hd, hsym]
  · intro Host r load hsym
    simp [Reloadable.reload, hsym]
  · intro a load
    constructor <;> intro hd <;> simp [App.reload, hd]

/-- C4 amended witness: a loaded orchestrator with one matching `Write` event
reloads; with a non-matching event it does nothing; the unloaded `App` with
no matching event does nothing. -/
theorem C4_amended_witness :
    (drainShouldReload "/build/libdemo.so"
        [DebouncedEvent.write "/build/libdemo.so"]
      = [DebouncedEvent.write "/build/libdemo.so"].any
          (eventMatches "/build/libdemo.so")) ∧
    (({ rLoaded with rx := [DebouncedEvent.write "/build/libdemo.so"] } :
        Reloadable Nat).reload (some (apiInert 6 8))
      = ({ ({ rLoaded with rx := [DebouncedEvent.write "/build/libdemo.so"] } :
            Reloadable Nat) with rx := [] } : Reloadable Nat).reloadNow
          (some (apiInert 6 8))) ∧
    (({ rLoaded with rx := [DebouncedEvent.create "/elsewhere.so"] } :
        Reloadable Nat).reload (some (apiInert 6 8))
      = ({ ({ rLoaded with rx := [DebouncedEvent.create "/elsewhere.so"] } :
            Reloadable Nat) with rx := [] }, .ok (), ([] : List Call))) ∧
    (aUnloaded.reload (some (apiInertNH 6 8))
      = ({ aUnloaded with rx := [] }, .ok (), ([] : List Call))) :=
  ⟨C4_amended_reload_on_match.1 "/build/libdemo.so"
      [DebouncedEvent.write "/build/libdemo.so"],
   (C4_amended_reload_on_match.2.1 Nat
      { rLoaded with rx := [DebouncedEvent.write "/build/libdemo.so"] }
      (apiInert 5 8) (some (apiInert 6 8)) rfl).1 rfl,
   (C4_amended_reload_on_match.2.1 Nat
      { rLoaded with rx := [DebouncedEvent.create "/elsewhere.so"] }
      (apiInert 5 8) (some (apiInert 6 8)) rfl).2 rfl,
   (C4_amended_reload_on_match.2.2.2 aUnloaded (some (apiInertNH 6 8))).2 rfl⟩

/-- A 16-byte buffer (2 u64 words, as after a load with `size() = 16`) whose
byte at offset 9 holds 42. -/
def bufC5 : Buffer := List.replicate 9 0 ++ 42 :: List.replicate 6 0

/-- C5 counterexample: shrinking the declared size from S1 = 16 to S2 = 9
does **not** discard the bytes at offsets `[9, 16)`: the resize works in
whole u64 words (`(9 + 7) / 8 = 2` words), so the buffer keeps all 16 bytes
and offset 9 still holds its old value 42. -/
theorem C5_counterexample :
    bufC5.length = 8 * ((16 + 7) / 8) ∧
    (reallocBuffer bufC5 9).length = 16 ∧
    (reallocBuffer bufC5 9).getD 9 0 = 42 := by
  decide

/-- C5 amended: a reload that decreases the declared size from S1 to S2 < S1
truncates at u64-word granularity: the new buffer holds `8 * ((S2 + 7) / 8)`
bytes (no more than before), every byte at an offset below that word-rounded
bound — in particular all of `[0, S2)` — is preserved unchanged, and only the
offsets in `[8 * ((S2 + 7) / 8), S1)` are discarded. -/
theorem C5_amended_truncation_word_granular (buf : Buffer) (S1 S2 : Nat)
    (hlen : buf.length = 8 * ((S1 + 7) / 8)) (hlt : S2 < S1) :
    (reallocBuffer buf S2).length = 8 * ((S2 + 7) / 8) ∧
    8 * ((S2 + 7) / 8) ≤ buf.length ∧
    S2 ≤ 8 * ((S2 + 7) / 8) ∧
    ∀ i < 8 * ((S2 + 7) / 8), (reallocBuffer buf S2).getD i 0 = buf.getD i 0 := by
  have hdiv : (S2 + 7) / 8 ≤ (S1 + 7) / 8 := Nat.div_le_div_right (by omega)
  refine ⟨reallocBuffer_length _ _, by omega, by omega,
    fun i hi => reallocBuffer_getD_lt _ _ _ hi⟩

/-- C5 amended witness: `bufC5` shrunk from declared size 16 to 9. -/
theorem C5_amended_witness :
    (reallocBuffer bufC5 9).length = 8 * ((9 + 7) / 8) ∧
    8 * ((9 + 7) / 8) ≤ bufC5.length ∧
    9 ≤ 8 * ((9 + 7) / 8) ∧
    ∀ i < 8 * ((9 + 7) / 8), (reallocBuffer bufC5 9).getD i 0 = bufC5.getD i 0 :=
  C5_amended_truncation_word_granular bufC5 16 9 (by decide) (by decide)

/-- The state reached by constructing against `apiWrites16` (declared size
16, `init` writes 7 at offset 10) and then reloading to a table with declared
size 9: the buffer still holds 2 words, with byte 10 = 7, but the declared
size is now 9. -/
def rShrunk : Reloadable Nat :=
  ((match (Reloadable.new Nat "/build/libdemo.so" 0 (some apiWrites16) true true).1 with
    | .ok r => r
    | .error _ => rUnloaded).reloadNow (some (apiInert 2 9))).1

/-- C6 counterexample: a reachable run (declared sizes 16 → 9 → 16, every
lifecycle entry writing only within its declared size) in which the reload
that increases the declared size from 9 to 16 succeeds yet leaves byte
10 ∈ [9, 16) equal to 7, not 0: the buffer is 2 words before and after, so
the grow never zero-fills `[9, 16)`. -/
theorem C6_counterexample :
    (rShrunk.sym.map ReloadApi.size) = some 9 ∧
    (rShrunk.reloadNow (some (apiInert 3 16))).2.1 = .ok () ∧
    ((rShrunk.reloadNow (some (apiInert 3 16))).1.sym.map ReloadApi.size) = some 16 ∧
    (rShrunk.reloadNow (some (apiInert 3 16))).1.state.getD 10 0 = 7 := by
  refine ⟨rfl, rfl, rfl, by decide⟩

/-- C6 amended: a reload that increases the declared size from S1 to S2 ≥ S1
keeps every byte of the old buffer — all `8 * ((S1 + 7) / 8)` of them, in
particular `[0, S1)` — unchanged at the same offsets, and zero-fills exactly
the newly appended words, i.e. offsets from the old byte length
`8 * ((S1 + 7) / 8)` up; bytes in `[S1, 8 * ((S1 + 7) / 8))`, inside the last
old word, keep whatever they held before and are **not** zeroed. -/
theorem C6_amended_growth_zero_fills_new_words (buf : Buffer) (S1 S2 : Nat)
    (hlen : buf.length = 8 * ((S1 + 7) / 8)) (hle : S1 ≤ S2) :
    (reallocBuffer buf S2).length = 8 * ((S2 + 7) / 8) ∧
    (∀ i < buf.length, (reallocBuffer buf S2).getD i 0 = buf.getD i 0) ∧
    (∀ i, buf.length ≤ i → (reallocBuffer buf S2).getD i 0 = 0) := by
  have hdiv : (S1 + 7) / 8 ≤ (S2 + 7) / 8 := Nat.div_le_div_right (by omega)
  exact ⟨reallocBuffer_length _ _,
    fun i hi => reallocBuffer_getD_lt _ _ _ (by omega),
    fun i hi => reallocBuffer_getD_ge _ _ _ hi⟩

/-- C6 amended witness: `bufC5` (2 words, byte 9 = 42) grown from declared
size 9 to 24. -/
theorem C6_amended_witness :
    (reallocBuffer bufC5 24).length = 8 * ((24 + 7) / 8) ∧
    (∀ i < bufC5.length, (reallocBuffer bufC5 24).getD i 0 = bufC5.getD i 0) ∧
    (∀ i, bufC5.length ≤ i → (reallocBuffer bufC5 24).getD i 0 = 0) :=
  C6_amended_growth_zero_fills_new_words bufC5 9 24 (by decide) (by decide)

/-- C7: `update` on an orchestrator with nothing loaded returns
`ShouldQuit.No` and has no observable effect: the orchestrator (state buffer,
host value, everything) is returned unchanged and no ABI entry is invoked
(empty trace).  Both variants. -/
theorem C7_update_unloaded_noop :
    (∀ (Host : Type) (r : Reloadable Host), r.sym = none →
      r.update = (r, ShouldQuit.No, ([] : List Call))) ∧
    (∀ a : App, a.sym = none →
      a.update = (a, ShouldQuit.No, ([] : List Call))) := by
  constructor
  · intro Host r h
    simp [Reloadable.update, h]
  · intro a h
    simp [App.update, h]

/-- C7 witness: `update` on the concrete unloaded orchestrators. -/
theorem C7_witness :
    rUnloaded.update = (rUnloaded, ShouldQuit.No, ([] : List Call)) ∧
    aUnloaded.update = (aUnloaded, ShouldQuit.No, ([] : List Call)) :=
  ⟨C7_update_unloaded_noop.1 Nat rUnloaded rfl,
   C7_update_unloaded_noop.2 aUnloaded rfl⟩

/-- C8: on destruction, `deinit` is invoked exactly once iff a library is
currently loaded: drop of a loaded orchestrator traces exactly one `deinit`
on the loaded table, drop of an unloaded one traces nothing — in particular
the orchestrator left by a failed `reload_now` tears down with no lifecycle
call at all.  Both variants. -/
theorem C8_drop_deinit_iff_loaded :
    (∀ (Host : Type) (r : Reloadable Host) (api : ReloadApi Host),
      r.sym = some api → (r.drop).2 = [Call.deinit api.id]) ∧
    (∀ (Host : Type) (r : Reloadable Host), r.sym = none → (r.drop).2 = []) ∧
    (∀ (Host : Type) (r : Reloadable Host) (api : ReloadApi Host),
      r.sym = some api → (((r.reloadNow none).1).drop).2 = []) ∧
    (∀ (a : App) (api : ReloadApiNoHost),
      a.sym = some api → (a.drop).2 = [Call.deinit api.id]) ∧
    (∀ a : App, a.sym = none → (a.drop).2 = []) := by
  refine ⟨?_, ?_, ?_, ?_, ?_⟩
  · intro Host r api h
    simp [Reloadable.drop, h]
  · intro Host r h
    simp [Reloadable.drop, h]
  · intro Host r api h
    simp [Reloadable.drop, Reloadable.reloadNow, h]
  · intro a api h
    simp [App.drop, h]
  · intro a h
    simp [App.drop, h]

/-- C8 witness: drop of the loaded, the unloaded, and the
just-failed-a-reload orchestrators. -/
theorem C8_witness :
    (rLoaded.drop).2 = [Call.deinit 5] ∧
    (rUnloaded.drop).2 = [] ∧
    (((rLoaded.reloadNow none).1).drop).2 = [] ∧
    (aLoaded.drop).2 = [Call.deinit 5] ∧
    (aUnloaded.drop).2 = [] :=
  ⟨C8_drop_deinit_iff_loaded.1 Nat rLoaded (apiInert 5 8) rfl,
   C8_drop_deinit_iff_loaded.2.1 Nat rUnloaded rfl,
   C8_drop_deinit_iff_loaded.2.2.1 Nat rLoaded (apiInert 5 8) rfl,
   C8_drop_deinit_iff_loaded.2.2.2.1 aLoaded (apiInertNH 5 8) rfl,
   C8_drop_deinit_iff_loaded.2.2.2.2 aUnloaded rfl⟩

/-- C9: `8 * ((S + 7) / 8)` is exactly S rounded up to a multiple of 8, every
`realloc_buffer` leaves the buffer at that byte length — `(S + 7) / 8` whole
u64 words — and therefore, for tables whose entries respect the raw-pointer
memory model (they cannot resize the vector), the buffer holds exactly
`(S + 7) / 8` words after a successful construction and after every
successful `reload_now` whose incoming table reports `size() = S`.  Both
variants. -/
theorem C9_buffer_word_count :
    (∀ S : Nat, S ≤ 8 * ((S + 7) / 8) ∧ 8 * ((S + 7) / 8) < S + 8 ∧
      8 ∣ 8 * ((S + 7) / 8)) ∧
    (∀ (b : Buffer) (S : Nat), (reallocBuffer b S).length = 8 * ((S + 7) / 8)) ∧
    (∀ (Host : Type) (path : String) (host : Host) (api : ReloadApi Host)
        (w c : Bool) (r : Reloadable Host) (tr : List Call),
      api.preservesLen →
      Reloadable.new Host path host (some api) w c = (.ok r, tr) →
      r.state.length = 8 * ((api.size + 7) / 8)) ∧
    (∀ (Host : Type) (r : Reloadable Host) (api : ReloadApi Host),
      api.preservesLen →
      ((r.reloadNow (some api)).1).state.length = 8 * ((api.size + 7) / 8)) ∧
    (∀ (path : String) (api : ReloadApiNoHost) (w c : Bool) (a : App)
        (tr : List Call),
      api.preservesLen →
      App.new path (some api) w c = (.ok a, tr) →
      a.state.length = 8 * ((api.size + 7) / 8)) ∧
    (∀ (a : App) (api : ReloadApiNoHost),
      api.preservesLen →
      ((a.reloadNow (some api)).1).state.length = 8 * ((api.size + 7) / 8)) := by
  refine ⟨?_, ?_, ?_, ?_, ?_, ?_⟩
  · intro S
    refine ⟨?_, ?_, Dvd.intro _ rfl⟩ <;> omega
  · intro b S
    exact reallocBuffer_length b S
  · intro Host path host api w c r tr hp hnew
    obtain ⟨_, _, _, _, hstate⟩ := new_ok_inv hnew
    rw [hstate, hp.1, reallocBuffer_length]
  · intro Host r api hp
    cases hsym : r.sym <;>
      simp [Reloadable.reloadNow, hsym, hp.2.1, reallocBuffer_length]
  · intro path api w c a tr hp hnew
    obtain ⟨_, _, _, hstate⟩ := newNH_ok_inv hnew
    rw [hstate, hp.1, reallocBuffer_length]
  · intro a api hp
    cases hsym : a.sym <;>
      simp [App.reloadNow, hsym, hp.2.1, reallocBuffer_length]

/-- C9 witness: the arithmetic at S = 9, a fresh construction with a size-8
table, and reloads of loaded orchestrators to size-9 tables. -/
theorem C9_witness :
    (9 ≤ 8 * ((9 + 7) / 8) ∧ 8 * ((9 + 7) / 8) < 9 + 8 ∧ 8 ∣ 8 * ((9 + 7) / 8)) ∧
    (reallocBuffer bufC5 9).length = 8 * ((9 + 7) / 8) ∧
    rFresh.state.length = 8 * (((apiInert 0 8).size + 7) / 8) ∧
    ((rLoaded.reloadNow (some (apiInert 6 9))).1).state.length
        = 8 * (((apiInert 6 9).size + 7) / 8) ∧
    aFresh.state.length = 8 * (((apiInertNH 0 8).size + 7) / 8) ∧
    ((aLoaded.reloadNow (some (apiInertNH 6 9))).1).state.length
        = 8 * (((apiInertNH 6 9).size + 7) / 8) :=
  ⟨C9_buffer_word_count.1 9,
   C9_buffer_word_count.2.1 bufC5 9,
   C9_buffer_word_count.2.2.1 Nat "/build/libdemo.so" 0 (apiInert 0 8) true true
     rFresh [Call.init 0] (apiInert_preservesLen 0 8) rfl,
   C9_buffer_word_count.2.2.2.1 Nat rLoaded (apiInert 6 9)
     (apiInert_preservesLen 6 9),
   C9_buffer_word_count.2.2.2.2.1 "/build/libdemo.so" (apiInertNH 0 8) true true
     aFresh [Call.init 0] (apiInertNH_preservesLen 0 8) rfl,
   C9_buffer_word_count.2.2.2.2.2 aLoaded (apiInertNH 6 9)
     (apiInertNH_preservesLen 6 9)⟩

/-- C10: the two variants' `reload` differ exactly when nothing is loaded:
`Reloadable::reload` invokes `reload_now` whenever `sym` is `None`, even with
no matching drained event (so a failed reload is retried on every later
`reload()`), while `App::reload` invokes `reload_now` only when a drained
event matched, so an unloaded `App` with no matching event stays unloaded and
makes no lifecycle call.  Concretely, on the same unloaded inputs with an
empty queue and a loadable artifact, `Reloadable::reload` ends loaded (table
id 4 installed, its post-load entry run) while `App::reload` ends still
unloaded with an empty trace. -/
theorem C10_variant_reload_divergence :
    (∀ (Host : Type) (r : Reloadable Host) (load : Option (ReloadApi Host)),
      r.sym = none →
      r.reload load = ({ r with rx := [] } : Reloadable Host).reloadNow load) ∧
    (∀ (a : App) (load : Option ReloadApiNoHost),
      drainShouldReload a.path a.rx = false →
      a.reload load = ({ a with rx := [] }, .ok (), ([] : List Call))) ∧
    (∀ (a : App) (load : Option ReloadApiNoHost),
      drainShouldReload a.path a.rx = true →
      a.reload load = ({ a with rx := [] } : App).reloadNow load) ∧
    ((rUnloaded.reload (some (apiInert 4 8))).1.sym.map ReloadApi.id = some 4) ∧
    ((rUnloaded.reload (some (apiInert 4 8))).2.2 = [Call.reload 4]) ∧
    ((aUnloaded.reload (some (apiInertNH 4 8))).1.sym.map ReloadApiNoHost.id
        = none) ∧
    ((aUnloaded.reload (some (apiInertNH 4 8))).2.2 = []) := by
  refine ⟨?_, ?_, ?_, rfl, rfl, rfl, rfl⟩
  · intro Host r load hsym
    simp [Reloadable.reload, hsym]
  · intro a load hd
    simp [App.reload, hd]
  · intro a load hd
    simp [App.reload, hd]

/-- C10 witness: the universal conjuncts applied at the concrete unloaded
orchestrators. -/
theorem C10_witness :
    rUnloaded.reload none
        = ({ rUnloaded with rx := [] } : Reloadable Nat).reloadNow none ∧
    aUnloaded.reload none = ({ aUnloaded with rx := [] }, .ok (), ([] : List Call)) ∧
    ({ aLoaded with rx := [DebouncedEvent.write "/build/libdemo.so"] } : App).reload
          (some (apiInertNH 6 8))
        = ({ ({ aLoaded with rx := [DebouncedEvent.write "/build/libdemo.so"] } : App)
              with rx := [] } : App).reloadNow (some (apiInertNH 6 8)) :=
  ⟨C10_variant_reload_divergence.1 Nat rUnloaded none rfl,
   C10_variant_reload_divergence.2.1 aUnloaded none rfl,
   C10_variant_reload_divergence.2.2.1
     { aLoaded with rx := [DebouncedEvent.write "/build/libdemo.so"] }
     (some (apiInertNH 6 8)) rfl⟩

end LiveReload
